import Mathlib

/-!
Verification of the SEIR sampling model (`seir/sampling/model.py`) against its
natural-language specification.  Python functions are shallowly embedded as
executable Lean definitions over `ℚ`; numpy arrays appear as lists or as
functions of sample/group indices; fallible code returns `Except String`.
-/

namespace SeirModel

/-! ## Shape classifier (`_determine_sample_vars`)

A parameter's numpy shape is embedded as a `List Nat` (its length is `ndim`).
The classifier walks the parameter mapping in order, carrying the three
classification dictionaries (only the keys matter for classification) and the
currently established sample count. -/

structure ClassifyState where
  scalarVars : List String
  groupVars : List String
  sampleVars : List String
  nbSamples : Option Nat

/-- One loop iteration of `_determine_sample_vars`: the `ndim`-dispatch,
the first `if d0 > 1 / elif shape == (1, nb_groups) / else` block, and the
following `if nb_samples:` block (which runs on the updated `nb_samples`,
exactly as in the source). -/
def classifyStep (nbGroups : Nat) (st : ClassifyState) (key : String) (shape : List Nat) :
    Except String ClassifyState :=
  match shape with
  | [] => Except.ok { st with scalarVars := st.scalarVars ++ [key] }
  | [_] => Except.error ("Variable " ++ key ++ " should either be zero or two dimensional")
  | [d0, d1] =>
    let step1 : Except String ClassifyState :=
      if 1 < d0 then Except.ok { st with nbSamples := some d0 }
      else if d0 = 1 ∧ d1 = nbGroups then
        Except.ok { st with groupVars := st.groupVars ++ [key] }
      else Except.error ("Variable " ++ key ++ " seems to be an ill-defined group specific variable")
    match step1 with
    | Except.error e => Except.error e
    | Except.ok st1 =>
      match st1.nbSamples with
      | none => Except.ok st1
      | some ns =>
        if ns = 0 then Except.ok st1
        else if d0 ≠ ns then
          Except.error ("Inconsistencies in number of samples made for variable " ++ key)
        else if ¬ ((d0 = ns ∧ d1 = 1) ∨ (d0 = ns ∧ d1 = nbGroups)) then
          Except.error ("Variable " ++ key ++ " is either an ill-defined sampler or population group specific variable")
        else Except.ok { st1 with sampleVars := st1.sampleVars ++ [key] }
  | _ => Except.error ("Variable " ++ key ++ " has too many dimensions")

/-- `_determine_sample_vars(vars, nb_groups)`: fold the per-variable step over
the mapping, then apply the trailing `if not nb_samples: nb_samples = 1`. -/
def determineSampleVars (nbGroups : Nat) (vars : List (String × List Nat)) :
    Except String (Nat × ClassifyState) :=
  match vars.foldlM (fun st kv => classifyStep nbGroups st kv.1 kv.2) ⟨[], [], [], none⟩ with
  | Except.error e => Except.error e
  | Except.ok st =>
    match st.nbSamples with
    | none => Except.ok (1, st)
    | some ns => if ns = 0 then Except.ok (1, st) else Except.ok (ns, st)

/-! ## Constructor validation (`SamplingNInfectiousModel.__init__`, lines 100-107)

Parameters are embedded as rationals (the scalar case of the numpy arrays;
`np.all` over a scalar is the comparison itself). -/

structure InitParams where
  beta : ℚ
  rel_lockdown_beta : ℚ
  rel_postlockdown_beta : ℚ
  rel_beta_as : ℚ
  prop_as : ℚ
  prop_m : ℚ
  prop_s_to_h : ℚ
  prop_h_to_c : ℚ
  prop_h_to_d : ℚ
  prop_c_to_d : ℚ
  time_incubate : ℚ
  time_infectious : ℚ
  time_s_to_h : ℚ
  time_s_to_c : ℚ
  time_h_to_c : ℚ
  time_h_to_r : ℚ
  time_h_to_d : ℚ
  time_c_to_r : ℚ
  time_c_to_d : ℚ

/-- Run a per-entry check over a named list of values, stopping at the first
failure: the shape of each `for key, value in ...: assert ...` loop. -/
def seqChecks (f : String → ℚ → Except String Unit) : List (String × ℚ) → Except String Unit
  | [] => Except.ok ()
  | kv :: rest =>
    match f kv.1 kv.2 with
    | Except.error e => Except.error e
    | Except.ok _ => seqChecks f rest

/-- The `beta_vars` dictionary (keys with their values). -/
def betaList (p : InitParams) : List (String × ℚ) :=
  [("beta", p.beta), ("rel_lockdown_beta", p.rel_lockdown_beta),
   ("rel_postlockdown_beta", p.rel_postlockdown_beta), ("rel_beta_as", p.rel_beta_as)]

/-- The rate loop: `for key, value in beta_vars.items(): assert np.all(beta >= 0)`.
The source tests `beta` on every iteration, not `value`; the embedding keeps
that slip. -/
def betaChecks (p : InitParams) : Except String Unit :=
  seqChecks (fun name _ => if 0 ≤ p.beta then Except.ok ()
    else Except.error ("Value in " ++ name ++ " is smaller than 0")) (betaList p)

/-- The `prop_vars` dictionary, including the derived proportions
`prop_s = 1 - prop_as - prop_m`, `prop_s_to_c = 1 - prop_s_to_h` and
`prop_h_to_r = 1 - prop_h_to_c - prop_h_to_d` computed at lines 62-65. -/
def propList (p : InitParams) : List (String × ℚ) :=
  [("prop_as", p.prop_as), ("prop_m", p.prop_m),
   ("prop_s", 1 - p.prop_as - p.prop_m),
   ("prop_s_to_h", p.prop_s_to_h), ("prop_s_to_c", 1 - p.prop_s_to_h),
   ("prop_h_to_c", p.prop_h_to_c), ("prop_h_to_d", p.prop_h_to_d),
   ("prop_h_to_r", 1 - p.prop_h_to_c - p.prop_h_to_d),
   ("prop_c_to_d", p.prop_c_to_d)]

/-- One proportion check: `assert np.all(value <= 1)` then
`assert np.all(value >= 1)` (the source really asserts `>= 1`, with an error
message that talks about being smaller than 0). -/
def propCheck1 (name : String) (v : ℚ) : Except String Unit :=
  if v ≤ 1 then
    if 1 ≤ v then Except.ok ()
    else Except.error ("Value in proportion " ++ name ++ " is smaller than 0")
  else Except.error ("Value in proportion " ++ name ++ " is greater than 1")

def propChecks (p : InitParams) : Except String Unit :=
  seqChecks propCheck1 (propList p)

/-- The `time_vars` dictionary. -/
def timeList (p : InitParams) : List (String × ℚ) :=
  [("time_incubate", p.time_incubate), ("time_infectious", p.time_infectious),
   ("time_s_to_h", p.time_s_to_h), ("time_s_to_c", p.time_s_to_c),
   ("time_h_to_c", p.time_h_to_c), ("time_h_to_r", p.time_h_to_r),
   ("time_h_to_d", p.time_h_to_d), ("time_c_to_r", p.time_c_to_r),
   ("time_c_to_d", p.time_c_to_d)]

def timeCheck1 (name : String) (v : ℚ) : Except String Unit :=
  if 0 ≤ v then Except.ok ()
  else Except.error ("Value in time " ++ name ++ " is smaller than 0.")

def timeChecks (p : InitParams) : Except String Unit :=
  seqChecks timeCheck1 (timeList p)

/-- The three assertion loops of `__init__` in source order. -/
def validateParams (p : InitParams) : Except String Unit :=
  match betaChecks p with
  | Except.error e => Except.error e
  | Except.ok _ =>
    match propChecks p with
    | Except.error e => Except.error e
    | Except.ok _ => timeChecks p

/-- A parameter set that is valid according to the specification: all rates
nonnegative, all proportions (including the derived ones) inside `[0, 1]`,
all times nonnegative. -/
def pHalf : InitParams :=
  ⟨1, 1, 1, 1, 1/4, 1/4, 1/2, 1/4, 1/4, 1/2, 1, 1, 1, 1, 1, 1, 1, 1, 1⟩

/-- A parameter set whose relative-beta rates are all negative while `beta`
itself is nonnegative. -/
def pNegRel : InitParams :=
  ⟨1, -1, -2, -3, 0, 0, 0, 0, 0, 0, 0, 0, 0, 0, 0, 0, 0, 0, 0⟩

/-! ## The ODE system (`_ode`, lines 205-250)

State and parameters are embedded per sample `k : Fin S` and group `g : Fin G`,
after numpy broadcasting: a scalar, `(1, G)`, `(S, 1)` or `(S, G)` array all
become a function `Fin S → Fin G → ℚ`; the per-sample population `n` (shape
`(S, 1)`) becomes `Fin S → ℚ`.  The fields `f_hosp_icu_prop` and
`f_icu_d_prop` are read by `_ode` from attributes that `__init__` never
assigns; they are carried here as arbitrary values. -/

structure OdeParams (S G : Nat) where
  beta : Fin S → Fin G → ℚ
  rel_beta_as : Fin S → Fin G → ℚ
  prop_as : Fin S → Fin G → ℚ
  prop_m : Fin S → Fin G → ℚ
  prop_s_to_h : Fin S → Fin G → ℚ
  time_inc : Fin S → Fin G → ℚ
  time_infectious : Fin S → Fin G → ℚ
  time_s_to_h : Fin S → Fin G → ℚ
  time_s_to_c : Fin S → Fin G → ℚ
  time_h_to_c : Fin S → Fin G → ℚ
  time_h_to_r : Fin S → Fin G → ℚ
  time_c_to_r : Fin S → Fin G → ℚ
  time_c_to_d : Fin S → Fin G → ℚ
  f_hosp_icu_prop : Fin S → Fin G → ℚ
  f_icu_d_prop : Fin S → Fin G → ℚ
  n : Fin S → ℚ

/-- The 14 compartments read by `_get_seird_from_flat_y` (indices 0 to 13 of
the per-(sample, group) state). -/
structure OdeState (S G : Nat) where
  s : Fin S → Fin G → ℚ
  e : Fin S → Fin G → ℚ
  i_as : Fin S → Fin G → ℚ
  i_m : Fin S → Fin G → ℚ
  i_s : Fin S → Fin G → ℚ
  i_i_h : Fin S → Fin G → ℚ
  i_i_icu : Fin S → Fin G → ℚ
  i_h : Fin S → Fin G → ℚ
  i_icu : Fin S → Fin G → ℚ
  r_as : Fin S → Fin G → ℚ
  r_m : Fin S → Fin G → ℚ
  r_h : Fin S → Fin G → ℚ
  r_icu : Fin S → Fin G → ℚ
  d_icu : Fin S → Fin G → ℚ

/-- The 14 components of `dydt` at one `(sample, group)` cell, in the order of
the final `np.concatenate`.  `inft` is the value `infectious_func(t)`; the
cross-group infection sum `np.sum(rel_beta_as * i_as + i_m + i_s, axis=1)` is
per sample. -/
def odeDerivList {S G : Nat} (p : OdeParams S G) (inft : ℚ) (y : OdeState S G)
    (k : Fin S) (g : Fin G) : List ℚ :=
  let inf_s_prop := 1 - p.prop_as k g - p.prop_m k g
  let time_i_to_h := p.time_s_to_h k g - p.time_infectious k g
  let time_i_to_icu := p.time_s_to_c k g - p.time_infectious k g
  let foi := ∑ g2 : Fin G, (p.rel_beta_as k g2 * y.i_as k g2 + y.i_m k g2 + y.i_s k g2)
  let ds := -1 / p.n k * inft * p.beta k g * foi * y.s k g
  let de := 1 / p.n k * inft * p.beta k g * foi * y.s k g - y.e k g / p.time_inc k g
  let di_as := p.prop_as k g * y.e k g / p.time_inc k g - y.i_as k g / p.time_infectious k g
  let di_m := p.prop_m k g * y.e k g / p.time_inc k g - y.i_m k g / p.time_infectious k g
  let di_s := inf_s_prop * y.e k g / p.time_inc k g - y.i_s k g / p.time_infectious k g
  let di_i_h := p.prop_s_to_h k g * y.i_s k g / p.time_infectious k g - y.i_i_h k g / time_i_to_h
  let di_i_icu := (1 - p.prop_s_to_h k g) * y.i_s k g / p.time_infectious k g
      - y.i_i_icu k g / time_i_to_icu
  let di_h := y.i_i_h k g / time_i_to_h - p.f_hosp_icu_prop k g * y.i_h k g / p.time_h_to_c k g
      - (1 - p.f_hosp_icu_prop k g) * y.i_h k g / p.time_h_to_r k g
  let di_icu := p.f_hosp_icu_prop k g * y.i_h k g / p.time_h_to_c k g
      + y.i_i_icu k g / time_i_to_icu
      - p.f_icu_d_prop k g * y.i_icu k g / p.time_c_to_d k g
      - (1 - p.f_icu_d_prop k g) * y.i_icu k g / p.time_c_to_r k g
  let dr_as := y.i_as k g / p.time_infectious k g
  let dr_m := y.i_m k g / p.time_infectious k g
  let dr_h := (1 - p.f_hosp_icu_prop k g) * y.i_h k g / p.time_h_to_r k g
  let dr_icu := (1 - p.f_icu_d_prop k g) * y.i_icu k g / p.time_c_to_r k g
  let dd_icu := p.f_icu_d_prop k g * y.i_icu k g / p.time_c_to_d k g
  [ds, de, di_as, di_m, di_s, di_i_h, di_i_icu, di_h, di_icu,
   dr_as, dr_m, dr_h, dr_icu, dd_icu]

/-! ## Time-varying infectiousness multiplier (`infectious_func`, lines 133-141) -/

def infectious_func (rel_lockdown_beta rel_postlockdown_beta : ℚ) (t : ℚ) : ℚ :=
  if t < -11 then 1
  else if -11 ≤ t ∧ t < 0 then 1 - (1 - rel_lockdown_beta) / 11 * (t - 11)
  else if 0 ≤ t ∧ t < 5 * 7 then rel_lockdown_beta
  else rel_postlockdown_beta

/-! ## State count and `y0` size check (lines 110-130, 252-259) -/

/-- `nb_states = 16` at line 111 of the source. -/
def nb_states : Nat := 16

/-- The constructor assertion `y0.size == nb_states * nb_groups * nb_samples`. -/
def y0SizeOk (nbGroups nbSamples y0size : Nat) : Bool :=
  y0size == nb_states * nbGroups * nbSamples

/-- The shape `solve` gives the trajectory:
`reshape(-1, nb_samples, nb_groups, nb_states)`. -/
def trajShape (T nbSamples nbGroups : Nat) : Nat × Nat × Nat × Nat :=
  (T, nbSamples, nbGroups, nb_states)

/-! ## Numpy-style values for the posterior weights

`log_weights` in `calculate_sir_posterior` is built as
`0 if obs is None else _log_poisson(...)` summed over the four channels with
numpy broadcasting, so it is either a Python scalar or a length-`S` vector. -/

inductive NpVal where
  | scalar : ℚ → NpVal
  | vec : List ℚ → NpVal

/-- Broadcasting addition of scalars and same-length vectors. -/
def npAdd : NpVal → NpVal → NpVal
  | NpVal.scalar a, NpVal.scalar b => NpVal.scalar (a + b)
  | NpVal.scalar a, NpVal.vec l => NpVal.vec (l.map (fun x => a + x))
  | NpVal.vec l, NpVal.scalar b => NpVal.vec (l.map (fun x => x + b))
  | NpVal.vec l, NpVal.vec l2 => NpVal.vec ((l.zip l2).map (fun q => q.1 + q.2))

/-- Broadcasting division by a scalar (`log_weights / smoothing`). -/
def npDivScalar (v : NpVal) (c : ℚ) : NpVal :=
  match v with
  | NpVal.scalar q => NpVal.scalar (q / c)
  | NpVal.vec l => NpVal.vec (l.map (fun x => x / c))

/-- One observation channel: `0 if obs is None else _log_poisson(obs, qty)`.
The transcendental Poisson log-likelihood (`np.log`, `gammaln`) is abstracted
as the function `loglik` from the observation series and the trajectory to the
per-sample vector. -/
def chanContrib (loglik : List ℚ → List ℚ → List ℚ) (y : List ℚ)
    (obs : Option (List ℚ)) : NpVal :=
  match obs with
  | none => NpVal.scalar 0
  | some o => NpVal.vec (loglik o y)

/-- `log_weights = log_weights_detected + log_weights_hospital +
log_weights_icu + log_weights_dead`. -/
def logWeightsOf (loglik : List ℚ → List ℚ → List ℚ) (y : List ℚ)
    (c1 c2 c3 c4 : Option (List ℚ)) : NpVal :=
  npAdd (npAdd (npAdd (chanContrib loglik y c1) (chanContrib loglik y c2))
    (chanContrib loglik y c3)) (chanContrib loglik y c4)

/-- `scipy.special.softmax` with the exponential abstracted as `pexp`:
subtract the max, exponentiate, normalise.  On a 0-d input the result is the
0-d value `exp(x-x)/exp(x-x)`. -/
def softmax (pexp : ℚ → ℚ) : NpVal → NpVal
  | NpVal.scalar q => NpVal.scalar (pexp (q - q) / pexp (q - q))
  | NpVal.vec l =>
    let mx := l.foldl max (l.headD 0)
    let ex := l.map (fun x => pexp (x - mx))
    NpVal.vec (ex.map (fun v => v / ex.sum))

/-! ## Resampling (`calculate_sir_posterior`, lines 338-346) -/

/-- Floor of a rational (`num.fdiv den` floors toward negative infinity). -/
def ratFloor (q : ℚ) : ℤ := Int.fdiv q.num q.den

/-- `np.round`: nearest integer, ties to even. -/
def npRound (q : ℚ) : ℤ :=
  let f : ℤ := ratFloor q
  let r : ℚ := q - (f : ℚ)
  if r < 1/2 then f
  else if 1/2 < r then f + 1
  else if f % 2 = 0 then f else f + 1

structure ResampleResult where
  m : Nat
  vars : List (String × List ℚ)

/-- The resampling block: `m = int(np.round(nb_samples * ratio_resample))`,
`resample_indices = np.random.choice(nb_samples, m, p=weights)` (abstracted as
`draw`), then `resample_vars[key] = value[resample_indices]` for every sampled
variable, all with the one drawn index list.  A sampled variable's first axis
is embedded as a function `Nat → ℚ`. -/
def resampleStep (S : Nat) (frac : ℚ) (draw : Nat → List Nat)
    (svars : List (String × (Nat → ℚ))) : ResampleResult :=
  let m := (npRound ((S : ℚ) * frac)).toNat
  let idx := draw m
  ⟨m, svars.map (fun kv => (kv.1, idx.map kv.2))⟩

/-! ## Model state, `solve` caching, and `calculate_sir_posterior` effects -/

/-- The constructor-derived fields set at lines 150-193 of `__init__`
(parameters embedded as scalars, arrays as flat lists). -/
structure ModelParams where
  beta : ℚ
  rel_beta_as : ℚ
  rel_lockdown_beta : ℚ
  rel_postlockdown_beta : ℚ
  prop_as : ℚ
  prop_m : ℚ
  prop_s : ℚ
  prop_s_to_h : ℚ
  prop_h_to_c : ℚ
  prop_h_to_d : ℚ
  prop_h_to_r : ℚ
  prop_c_to_d : ℚ
  time_inc : ℚ
  time_infectious : ℚ
  time_s_to_h : ℚ
  time_s_to_c : ℚ
  time_h_to_c : ℚ
  time_h_to_r : ℚ
  time_h_to_d : ℚ
  time_c_to_r : ℚ
  time_c_to_d : ℚ
  nbGroups : Nat
  nbSamples : Nat
  y0 : List ℚ
  n : List ℚ
  scalarVars : List String
  groupVars : List String
  sampleVars : List (String × (Nat → ℚ))

/-- The whole model object: the immutable constructor-derived part plus the
fields `solve` and `calculate_sir_posterior` assign
(`_solved`, `_t`, `solution`, `resample_vars`, `log_weights`, `weights`). -/
structure Model where
  params : ModelParams
  solved : Bool
  tC : List ℚ
  solution : List ℚ
  resampleVars : Option (List (String × List ℚ))
  logWeights : Option NpVal
  weights : Option NpVal

/-- `.clip(min=0)` on the flat trajectory. -/
def clip0 (l : List ℚ) : List ℚ := l.map (fun x => max x 0)

/-- `np.all(xs != ys)`: elementwise inequality must hold everywhere; numpy
comparison of incompatible shapes yields the scalar `True`, so differing
lengths give `true`. -/
def npAllNe (xs ys : List ℚ) : Bool :=
  if xs.length = ys.length then (xs.zip ys).all (fun q => q.1 != q.2) else true

/-- `solve(t, y0)`, lines 252-267: default `y0`, first-solve branch, then the
cache test `np.all(t != self._t) or np.all(y0 != self.y0)`.  The scipy
integrator is abstracted as `integrate` (applied to the initial state and the
time grid); reshaping is left implicit in the flat trajectory. -/
def solveM (integrate : List ℚ → List ℚ → List ℚ) (m : Model) (t : List ℚ)
    (y0opt : Option (List ℚ)) : List ℚ × Model :=
  let y0 := y0opt.getD m.params.y0
  if m.solved = false then
    let sol := clip0 (integrate y0 t)
    (sol, { m with solution := sol, tC := t, solved := true })
  else if npAllNe t m.tC || npAllNe y0 m.params.y0 then
    let sol := clip0 (integrate y0 t)
    (sol, { m with tC := t, solution := sol })
  else (m.solution, m)

/-- `calculate_sir_posterior`, lines 269-350: solve (updating the cache),
compute `log_weights` from the up-to-four observation channels, softmax,
resample the sampled variables with one drawn index list, and assign the three
diagnostic fields. -/
def calcM (integrate : List ℚ → List ℚ → List ℚ) (pexp : ℚ → ℚ)
    (loglik : List ℚ → List ℚ → List ℚ) (draw : Nat → List Nat)
    (m : Model) (t : List ℚ) (c1 c2 c3 c4 : Option (List ℚ))
    (frac smoothing : ℚ) (y0opt : Option (List ℚ)) : Model :=
  let ym := solveM integrate m t y0opt
  let lw := logWeightsOf loglik ym.1 c1 c2 c3 c4
  let w := softmax pexp (npDivScalar lw smoothing)
  let r := resampleStep ym.2.params.nbSamples frac draw ym.2.params.sampleVars
  { ym.2 with resampleVars := some r.vars, logWeights := some lw, weights := some w }

/-- A concrete valid parameter record for the cache experiment: one group, one
sample, initial state `[1]`. -/
def testParams : ModelParams :=
  ⟨1, 1, 1, 1, 1, 0, 0, 1, 0, 0, 1, 1, 1, 2, 2, 1, 1, 1, 1, 1, 1,
   1, 1, [1], [1], [], [], []⟩

/-- The model as `__init__` leaves it: unsolved, empty cache, no diagnostics. -/
def testModel : Model := ⟨testParams, false, [], [], none, none, none⟩

/-- A stand-in integrator that returns the time grid itself, so a fresh
integration on a different grid is observably different. -/
def integId : List ℚ → List ℚ → List ℚ := fun _ t => t

/-! ## Helper lemmas -/

/-- If a sequential check loop succeeds, every entry passed its check. -/
theorem seqChecks_ok_mem (f : String → ℚ → Except String Unit) :
    ∀ l : List (String × ℚ), seqChecks f l = Except.ok () →
      ∀ kv ∈ l, f kv.1 kv.2 = Except.ok () := by
  intro l
  induction l with
  | nil => intro h kv hkv; cases hkv
  | cons a rest ih =>
    intro h kv hkv
    cases hfa : f a.1 a.2 with
    | error e => simp [seqChecks, hfa] at h
    | ok u =>
      simp only [seqChecks, hfa] at h
      cases hkv with
      | head => cases u; exact hfa
      | tail b hmem => exact ih h kv hmem

/-- A passed proportion check forces the value to be exactly 1 from both
sides. -/
theorem propCheck1_ok {name : String} {v : ℚ}
    (h : propCheck1 name v = Except.ok ()) : 1 ≤ v ∧ v ≤ 1 := by
  unfold propCheck1 at h
  split_ifs at h with h1 h2
  exact ⟨h2, h1⟩

/-- Elements of `(l.map f).zip l` pair each image with its preimage. -/
theorem map_zip_eq {α β : Type} (f : α → β) :
    ∀ (l : List α) (pr : β × α), pr ∈ (l.map f).zip l → pr.1 = f pr.2 := by
  intro l
  induction l with
  | nil => intro pr hpr; cases hpr
  | cons a rest ih =>
    intro pr hpr
    rw [List.map_cons, List.zip_cons_cons] at hpr
    cases hpr with
    | head => rfl
    | tail b hmem => exact ih pr hmem

/-- `solve` only writes the cache fields: params and the three diagnostic
fields come back untouched in every branch. -/
theorem solveM_frame (integrate : List ℚ → List ℚ → List ℚ) (m : Model)
    (t : List ℚ) (y0opt : Option (List ℚ)) :
    ((solveM integrate m t y0opt).2).params = m.params ∧
    ((solveM integrate m t y0opt).2).resampleVars = m.resampleVars ∧
    ((solveM integrate m t y0opt).2).logWeights = m.logWeights ∧
    ((solveM integrate m t y0opt).2).weights = m.weights := by
  unfold solveM
  dsimp only
  split
  · exact ⟨rfl, rfl, rfl, rfl⟩
  · split
    · exact ⟨rfl, rfl, rfl, rfl⟩
    · exact ⟨rfl, rfl, rfl, rfl⟩

/-! ## Claims -/

/-- C1: the claim says two sample tensors with differing first-axis lengths
must raise a validation error and that the classifier never silently returns
an `nb_samples` inconsistent with a sample-indexed parameter.  On the code,
`nb_samples` is overwritten by each new first-axis length before the
consistency comparison, so the mapping `a ↦ (2,1), b ↦ (3,1)` classifies both
as sample variables and returns `nb_samples = 3` with no error. -/
theorem classifier_silently_accepts_mismatched_samples :
    determineSampleVars 1 [("a", [2, 1]), ("b", [3, 1])]
      = Except.ok (3, ⟨[], [], ["a", "b"], some 3⟩) := by
  rfl

/-- C9: the claim says classification is order-independent and a
`(1, nb_groups)` tensor is a group vector even after a sample tensor.  On the
code, once a sample tensor has set `nb_samples`, the sample-count check is
also applied to a subsequent `(1, nb_groups)` group vector, whose first axis
is 1 ≠ nb_samples, so the order `sample, group` errors while `group, sample`
succeeds. -/
theorem classification_order_dependent :
    determineSampleVars 2 [("a", [2, 1]), ("b", [1, 2])]
      = Except.error "Inconsistencies in number of samples made for variable b" ∧
    determineSampleVars 2 [("b", [1, 2]), ("a", [2, 1])]
      = Except.ok (2, ⟨[], ["b"], ["a"], some 2⟩) := by
  exact ⟨rfl, rfl⟩

/-- C2: the claim says construction succeeds iff rates are ≥ 0, proportions
lie in `[0, 1]` and times are ≥ 0.  On the code: (a) the proportion loop
asserts both `value <= 1` and `value >= 1`, and since the derived
`prop_s_to_c = 1 - prop_s_to_h` is also checked, no parameter set at all can
pass validation; (b) the rate loop tests `beta` on every iteration instead of
the loop value, so all-negative relative betas pass it; (c) the concrete
spec-valid parameter set `pHalf` is rejected with the (mislabelled) message of
the `>= 1` assertion. -/
theorem init_validation_contradicts_claim :
    (∀ p : InitParams, validateParams p ≠ Except.ok ()) ∧
    betaChecks pNegRel = Except.ok () ∧
    validateParams pHalf
      = Except.error "Value in proportion prop_as is smaller than 0" := by
  refine ⟨?_, by rfl, ?_⟩
  · intro p h
    have hpc : propChecks p = Except.ok () := by
      unfold validateParams at h
      cases hb : betaChecks p with
      | error e => simp [hb] at h
      | ok u =>
        simp only [hb] at h
        cases hq : propChecks p with
        | error e => simp [hq] at h
        | ok v => cases v; rfl
    have hm1 := seqChecks_ok_mem propCheck1 (propList p) hpc
      ("prop_s_to_h", p.prop_s_to_h)
      (List.mem_cons_of_mem _ (List.mem_cons_of_mem _ (List.mem_cons_of_mem _
        (List.mem_cons_self _ _))))
    have hm2 := seqChecks_ok_mem propCheck1 (propList p) hpc
      ("prop_s_to_c", 1 - p.prop_s_to_h)
      (List.mem_cons_of_mem _ (List.mem_cons_of_mem _ (List.mem_cons_of_mem _
        (List.mem_cons_of_mem _ (List.mem_cons_self _ _)))))
    have e1 : (1 : ℚ) ≤ p.prop_s_to_h := (propCheck1_ok hm1).1
    have e2 : (1 : ℚ) ≤ 1 - p.prop_s_to_h := (propCheck1_ok hm2).1
    linarith
  · norm_num [validateParams, betaChecks, propChecks, seqChecks, betaList,
      propList, propCheck1, pHalf]
    rfl

/-- C3: the 14 components of the derivative vector produced by `_ode` sum to
zero at every `(sample, group)` cell, for every parameter choice and every
state, so exact integration keeps each per-group compartment total at its
t = 0 value.  The result holds for every value of the two attributes
`f_hosp_icu_prop` and `f_icu_d_prop` that `_ode` reads. -/
theorem ode_sum_zero (S G : Nat) (p : OdeParams S G) (inft : ℚ)
    (y : OdeState S G) (k : Fin S) (g : Fin G) :
    (odeDerivList p inft y k g).length = 14 ∧
    (odeDerivList p inft y k g).sum = 0 := by
  constructor
  · rfl
  · simp only [odeDerivList, List.sum_cons, List.sum_nil]
    ring

/-- C4: the claim says the lockdown ramp equals 1 at t = −11 and tends to
`rel_lockdown_beta` at t = 0.  The source computes
`1 - (1 - rel_lockdown_beta) / 11 * (t - 11)` (a `t - 11` where the stated
ramp needs `t + 11`): with `rel_lockdown_beta = 1/2` the multiplier at
t = −11 is 2, not 1. -/
theorem infectious_ramp_wrong_at_start :
    infectious_func (1/2) (3/4) (-11) = 2 ∧ (2 : ℚ) ≠ 1 := by
  constructor
  · norm_num [infectious_func]
  · norm_num

/-- C5: the claim says any difference in the time grid triggers a fresh
integration.  The source tests `np.all(t != self._t) or np.all(y0 != self.y0)`,
which re-integrates only when every element differs: after solving on the grid
`[0, 1]`, a call on `[0, 2]` (same `y0`) returns the stale cached trajectory
`[0, 1]`, although a fresh integration would return `[0, 2]`. -/
theorem solve_returns_stale_cache :
    (solveM integId (solveM integId testModel [0, 1] none).2 [0, 2] none).1
      = ([0, 1] : List ℚ) ∧
    clip0 (integId testParams.y0 [0, 2]) = ([0, 2] : List ℚ) ∧
    ([0, 1] : List ℚ) ≠ ([0, 2] : List ℚ) := by
  refine ⟨by norm_num [solveM, integId, testModel, testParams, npAllNe, clip0], ?_, by decide⟩
  norm_num [integId, clip0, testParams]

/-- C6: the claim says `y0` is accepted exactly when its flattened size is
`14 × nb_groups × nb_samples` and the trajectory has last dimension 14.  The
source sets `nb_states = 16`, asserts `y0.size == 16 * nb_groups * nb_samples`
(rejecting a 14-sized state for one group and one sample) and reshapes the
trajectory to `(-1, S, G, 16)`, even though `_ode` produces only 14 components
per cell (the removed `dr_s`/`dr_i` lines are still commented out in the
source). -/
theorem y0_size_requires_sixteen :
    y0SizeOk 1 1 (14 * 1 * 1) = false ∧
    y0SizeOk 1 1 (16 * 1 * 1) = true ∧
    nb_states ≠ 14 ∧
    trajShape 5 1 1 ≠ (5, 1, 1, 14) := by
  refine ⟨by decide, by decide, by decide, by decide⟩

/-- C7: the claim says that with all four observation channels omitted the
resampler produces the uniform weight vector `1/S` and the categorical draw
succeeds.  On the code, `log_weights` is then the Python scalar `0` (not a
length-S array), so `softmax` yields a 0-d value: the weights are never a
vector of any length, for any sample count, exponential, trajectory or
smoothing. -/
theorem omitted_channels_weights_scalar (loglik : List ℚ → List ℚ → List ℚ)
    (y : List ℚ) (pexp : ℚ → ℚ) (smoothing : ℚ) :
    logWeightsOf loglik y none none none none = NpVal.scalar 0 ∧
    ∀ l : List ℚ,
      softmax pexp (npDivScalar (logWeightsOf loglik y none none none none) smoothing)
        ≠ NpVal.vec l := by
  constructor
  · show npAdd (npAdd (npAdd (NpVal.scalar 0) (NpVal.scalar 0)) (NpVal.scalar 0))
      (NpVal.scalar 0) = NpVal.scalar 0
    norm_num [npAdd]
  · intro l h
    simp only [logWeightsOf, chanContrib, npAdd, npDivScalar, softmax] at h
    exact NpVal.noConfusion h

/-- C8: the resample count is `int(np.round(S * ratio_resample))` and the one
drawn index list is applied to every sampled variable, so each output position
of every parameter comes from the same original sample. -/
theorem resample_same_indices (S : Nat) (frac : ℚ) (draw : Nat → List Nat)
    (svars : List (String × (Nat → ℚ)))
    (hlen : (draw ((npRound ((S : ℚ) * frac)).toNat)).length
      = (npRound ((S : ℚ) * frac)).toNat)
    (hmem : ∀ i ∈ draw ((npRound ((S : ℚ) * frac)).toNat), i < S) :
    (resampleStep S frac draw svars).m = (npRound ((S : ℚ) * frac)).toNat ∧
    (∀ i ∈ draw ((npRound ((S : ℚ) * frac)).toNat), i < S) ∧
    ∀ pr ∈ ((resampleStep S frac draw svars).vars).zip svars,
      pr.1.1 = pr.2.1 ∧
      pr.1.2 = (draw ((npRound ((S : ℚ) * frac)).toNat)).map pr.2.2 ∧
      pr.1.2.length = (resampleStep S frac draw svars).m := by
  refine ⟨rfl, hmem, ?_⟩
  intro pr hpr
  have hpr2 : pr ∈ (svars.map
      (fun kv => (kv.1, (draw ((npRound ((S : ℚ) * frac)).toNat)).map kv.2))).zip svars := hpr
  have h := map_zip_eq
    (fun kv => (kv.1, (draw ((npRound ((S : ℚ) * frac)).toNat)).map kv.2)) svars pr hpr2
  refine ⟨?_, ?_, ?_⟩
  · rw [h]
  · rw [h]
  · rw [h]
    show ((draw ((npRound ((S : ℚ) * frac)).toNat)).map pr.2.2).length
      = (npRound ((S : ℚ) * frac)).toNat
    rw [List.length_map, hlen]

/-- Witness for C8 at a concrete input: four samples, resample ratio 1/2
(so m = 2), a draw that always returns index 1, and one sampled variable. -/
theorem resample_same_indices_witness :
    ((List.replicate ((npRound (((4 : Nat) : ℚ) * (1/2))).toNat) 1).length
        = (npRound (((4 : Nat) : ℚ) * (1/2))).toNat) ∧
    (∀ i ∈ List.replicate ((npRound (((4 : Nat) : ℚ) * (1/2))).toNat) 1, i < 4) ∧
    (resampleStep 4 (1/2) (fun mm => List.replicate mm 1)
      [("a", fun j => (j : ℚ))]).m = (npRound (((4 : Nat) : ℚ) * (1/2))).toNat := by
  refine ⟨by simp, ?_, ?_⟩
  · intro i hi
    have h2 := (List.mem_replicate.mp hi).2
    omega
  · exact (resample_same_indices 4 (1/2) (fun mm => List.replicate mm 1)
      [("a", fun j => (j : ℚ))] (by simp)
      (by intro i hi; have h2 := (List.mem_replicate.mp hi).2; omega)).1

/-- C10: neither `solve` nor `calculate_sir_posterior` touches a
constructor-derived field: `solve` writes only the cache triple and
`calculate_sir_posterior` additionally writes only the three diagnostic
fields; the `params` substructure survives both unchanged (and `solve` leaves
the diagnostics unchanged too). -/
theorem solve_and_posterior_frame (integrate : List ℚ → List ℚ → List ℚ)
    (pexp : ℚ → ℚ) (loglik : List ℚ → List ℚ → List ℚ) (draw : Nat → List Nat)
    (m : Model) (t : List ℚ) (c1 c2 c3 c4 : Option (List ℚ))
    (frac smoothing : ℚ) (y0opt : Option (List ℚ)) :
    ((solveM integrate m t y0opt).2).params = m.params ∧
    ((solveM integrate m t y0opt).2).resampleVars = m.resampleVars ∧
    ((solveM integrate m t y0opt).2).logWeights = m.logWeights ∧
    ((solveM integrate m t y0opt).2).weights = m.weights ∧
    (calcM integrate pexp loglik draw m t c1 c2 c3 c4 frac smoothing y0opt).params
      = m.params := by
  refine ⟨(solveM_frame integrate m t y0opt).1,
    (solveM_frame integrate m t y0opt).2.1,
    (solveM_frame integrate m t y0opt).2.2.1,
    (solveM_frame integrate m t y0opt).2.2.2, ?_⟩
  show ((solveM integrate m t y0opt).2).params = m.params
  exact (solveM_frame integrate m t y0opt).1

end SeirModel
